import Mathlib

/-!
Verification of the IoT ingestion-scoring-broadcast pipeline of the
Organ-C Codefest hackathon backend (`backend/routes/iot.py`).

The pipeline is embedded shallowly:
* Python floats become rationals (`ℚ`); the only float operations the
  pipeline performs are an absolute value and a comparison against 0.15.
* The scoring oracle (`ml.model.get_model()`) is an abstract record of two
  functions returning `Option` values; `none` models the call raising.
* The SQLAlchemy session is modelled by an execution trace: `db.add`
  appends a pending fact, `db.commit` makes all pending facts durable, and
  a trace that ends without a commit leaves its pending facts undurable
  (the session is closed without commit when an exception propagates).
* `asyncio.create_task(broadcast_update ...)` is a `dispatchTask` event;
  the background task itself is the separate function `broadcast_update`,
  parameterised by the behaviour of the WebSocket manager.
-/

namespace OrganC

/-- The request body of the ingestion endpoint (`IoTInput` pydantic model). -/
structure IoTInput where
  timestamp : String
  store : Int
  dept : Int
  Weekly_Sales : ℚ
  Temperature : ℚ
  Fuel_Price : ℚ
  CPI : ℚ
  Unemployment : ℚ
  IsHoliday : Int
deriving DecidableEq, Repr

/-- The normalized single-row dataframe built at the top of `iot_ingest`
(field renaming only: `store` → `Store`, `dept` → `Dept`). -/
structure Features where
  Weekly_Sales : ℚ
  Temperature : ℚ
  Fuel_Price : ℚ
  CPI : ℚ
  Unemployment : ℚ
  Store : Int
  Dept : Int
  IsHoliday : Int
deriving DecidableEq, Repr

/-- The dataframe construction in `iot_ingest` (lines 71–80 of iot.py). -/
def toFeatures (data : IoTInput) : Features :=
  { Weekly_Sales := data.Weekly_Sales
    Temperature := data.Temperature
    Fuel_Price := data.Fuel_Price
    CPI := data.CPI
    Unemployment := data.Unemployment
    Store := data.store
    Dept := data.dept
    IsHoliday := data.IsHoliday }

/-- The row returned by `model.detect_anomalies(df).iloc[0]`: the verdict
(`anomaly`, an IsolationForest code where `-1` means outlier) and the
continuous `anomaly_score`. -/
structure OracleAnomaly where
  anomaly : Int
  anomaly_score : ℚ
deriving DecidableEq, Repr

/-- The scoring oracle (`get_model()`): two entry points, each of which may
raise (`none`). -/
structure Oracle where
  detect_anomalies : Features → Option OracleAnomaly
  cluster : Features → Option Int

/-- Persisted `AnomalyLog` row (iot.py lines 87–92). -/
structure AnomalyLog where
  timestamp : String
  value : ℚ
  score : ℚ
  is_anomaly : Bool
deriving DecidableEq, Repr

/-- Persisted `ClusterLog` row (iot.py lines 96–101); `features` snapshots
`data.dict()`. -/
structure ClusterLog where
  store : Int
  dept : Int
  cluster : Int
  features : IoTInput
deriving DecidableEq, Repr

/-- Persisted `RiskLog` row (iot.py lines 114–121). -/
structure RiskLog where
  store : Int
  dept : Int
  risk_score : Nat
  risk_level : String
  anomaly : Int
  cluster : Int
deriving DecidableEq, Repr

/-- Persisted `Alert` row (iot.py lines 126–131). -/
structure Alert where
  store : Int
  dept : Int
  message : String
  risk_score : Nat
deriving DecidableEq, Repr

/-- A fact handed to `db.add`. -/
inductive Fact where
  | anomalyLog : AnomalyLog → Fact
  | clusterLog : ClusterLog → Fact
  | riskLog : RiskLog → Fact
  | alert : Alert → Fact
deriving DecidableEq, Repr

def Fact.isAnomalyLog : Fact → Bool
  | .anomalyLog _ => true
  | _ => false

def Fact.isClusterLog : Fact → Bool
  | .clusterLog _ => true
  | _ => false

def Fact.isRiskLog : Fact → Bool
  | .riskLog _ => true
  | _ => false

def Fact.isAlert : Fact → Bool
  | .alert _ => true
  | _ => false

/-- The risk score computation of iot.py lines 104–110: additive rules
starting from 0, `+40` when the anomaly verdict is `-1`, `+10` when
`abs(anomaly_score) > 0.15`, `+20` when `cluster_id in [6, 7]`. -/
def riskScore (anomaly_flag : Int) (anomaly_score : ℚ) (cluster_id : Int) : Nat :=
  (if anomaly_flag = -1 then 40 else 0)
    + (if 15 / 100 < |anomaly_score| then 10 else 0)
    + (if cluster_id = 6 ∨ cluster_id = 7 then 20 else 0)

/-- The level assignment of iot.py line 112:
`"HIGH" if score >= 60 else "MEDIUM" if score >= 30 else "LOW"`. -/
def riskLevel (score : Nat) : String :=
  if 60 ≤ score then "HIGH" else if 30 ≤ score then "MEDIUM" else "LOW"

/-- The alert message literal used both by the persisted `Alert` (line 129)
and by the broadcast alert (line 46). -/
def alertMessage : String := "⚠ High risk detected from IoT update"

/-- The response dict built at iot.py lines 136–143. -/
structure IngestResult where
  status : String
  anomaly : Int
  anomaly_score : ℚ
  cluster : Int
  risk_level : String
  risk_score : Nat
deriving DecidableEq, Repr

/-- One step of the sequential execution of `iot_ingest`, in program order. -/
inductive Event where
  | dbAdd : Fact → Event
  | dbCommit : Event
  | buildResult : IngestResult → Event
  | dispatchTask : IoTInput → IngestResult → Event
  | ret : IngestResult → Event
deriving DecidableEq, Repr

/-- The execution trace of one call of `iot_ingest` (iot.py lines 54–151).
A trace that stops early models an exception propagating out of the
endpoint: the session is closed by `get_db` without a commit, so pending
`db.add`s are discarded. -/
def iot_ingest (model : Oracle) (data : IoTInput) : List Event :=
  let df := toFeatures data
  match model.detect_anomalies df with
  | none => []
  | some an =>
    let anomaly_flag := an.anomaly
    let anomaly_score := an.anomaly_score
    let e1 : Event := .dbAdd (.anomalyLog
      { timestamp := data.timestamp
        value := data.Weekly_Sales
        score := anomaly_score
        is_anomaly := anomaly_flag == -1 })
    match model.cluster df with
    | none => [e1]
    | some cluster_id =>
      let e2 : Event := .dbAdd (.clusterLog
        { store := data.store, dept := data.dept
          cluster := cluster_id, features := data })
      let score := riskScore anomaly_flag anomaly_score cluster_id
      let level := riskLevel score
      let e3 : Event := .dbAdd (.riskLog
        { store := data.store, dept := data.dept
          risk_score := score, risk_level := level
          anomaly := anomaly_flag, cluster := cluster_id })
      let alertAdds : List Event :=
        if level = "HIGH" then
          [.dbAdd (.alert
            { store := data.store, dept := data.dept
              message := alertMessage, risk_score := score })]
        else []
      let result : IngestResult :=
        { status := "success"
          anomaly := anomaly_flag
          anomaly_score := anomaly_score
          cluster := cluster_id
          risk_level := level
          risk_score := score }
      [e1, e2, e3] ++ alertAdds
        ++ [Event.dbCommit, Event.buildResult result,
            Event.dispatchTask data result, Event.ret result]

/-- Session semantics: `dbAdd` appends to the pending list, `dbCommit`
flushes pending facts to the durable list. -/
def commitStep (st : List Fact × List Fact) (e : Event) : List Fact × List Fact :=
  match e with
  | .dbAdd f => (st.1 ++ [f], st.2)
  | .dbCommit => ([], st.2 ++ st.1)
  | _ => st

/-- The facts durably persisted by a trace. -/
def committedFacts (trace : List Event) : List Fact :=
  (trace.foldl commitStep ([], [])).2

/-- The background broadcast tasks dispatched by a trace, in dispatch order. -/
def dispatchedTasks : List Event → List (IoTInput × IngestResult)
  | [] => []
  | .dispatchTask d r :: es => (d, r) :: dispatchedTasks es
  | _ :: es => dispatchedTasks es

/-- The value returned to the HTTP caller, if the trace reaches `return`. -/
def returnedResult : List Event → Option IngestResult
  | [] => none
  | .ret r :: _ => some r
  | _ :: es => returnedResult es

/-- A message handed to the WebSocket manager by `broadcast_update`:
either the IoT-update notification (`manager.broadcast_iot_update(data,
result)`) or the alert notification (`manager.broadcast_alert(store, dept,
message, risk_score)`). -/
inductive BroadcastMsg where
  | iotUpdate : IoTInput → IngestResult → BroadcastMsg
  | alertMsg : Int → Int → String → Nat → BroadcastMsg
deriving DecidableEq, Repr

/-- Behaviour of the WebSocket manager as seen from `broadcast_update`:
each of the two manager calls either completes or raises the recorded
exception (`some e`). The manager implementation (`websocket_manager`) is
not part of the ingest route; this record abstracts over everything it
might do. -/
structure Manager where
  update_exc : Option String
  alert_exc : Option String
deriving DecidableEq, Repr

/-- Modelled from the spec: the Subscriber Registry implementation
(`websocket_manager`, not under src/) swallows per-subscriber delivery
failures inside `Broadcast`, so its broadcast entry points never raise to
their caller. -/
def specManager : Manager := { update_exc := none, alert_exc := none }

/-- The `try` block of `broadcast_update` (iot.py lines 38–48): broadcast
the IoT update; then, when the result's risk level is `"HIGH"`, broadcast
the alert. Returns the messages successfully handed to the manager and the
exception escaping the block, if any. -/
def broadcastBody (mgr : Manager) (data : IoTInput) (result : IngestResult) :
    List BroadcastMsg × Option String :=
  match mgr.update_exc with
  | some e => ([], some e)
  | none =>
    let sent : List BroadcastMsg := [.iotUpdate data result]
    if result.risk_level = "HIGH" then
      match mgr.alert_exc with
      | some e => (sent, some e)
      | none =>
        (sent ++ [.alertMsg data.store data.dept alertMessage result.risk_score],
         none)
    else (sent, none)

/-- The background task `broadcast_update` (iot.py lines 36–50): the body
runs under `try`, and any exception is caught and logged (lines 49–50), so
the second component — the exception escaping the task — is scrutinised
from the body's outcome. -/
def broadcast_update (mgr : Manager) (data : IoTInput) (result : IngestResult) :
    List BroadcastMsg × Option String :=
  match broadcastBody mgr data result with
  | (sent, some _) => (sent, none)
  | (sent, none) => (sent, none)

/-- One whole system run: the ingest call executes to completion (or
aborts), then every dispatched background task runs against the manager.
Returns the caller-visible result and the concatenated broadcast messages. -/
def systemRun (mgr : Manager) (model : Oracle) (data : IoTInput) :
    Option IngestResult × List BroadcastMsg :=
  let trace := iot_ingest model data
  (returnedResult trace,
   (dispatchedTasks trace).foldl
     (fun acc t => acc ++ (broadcast_update mgr t.1 t.2).1) [])

/-- Abbreviation: the risk score `iot_ingest` computes from an oracle
verdict and a cluster id. -/
def ingestScore (an : OracleAnomaly) (cid : Int) : Nat :=
  riskScore an.anomaly an.anomaly_score cid

/-- Abbreviation: the risk level `iot_ingest` computes from an oracle
verdict and a cluster id. -/
def ingestLevel (an : OracleAnomaly) (cid : Int) : String :=
  riskLevel (ingestScore an cid)

/-- Abbreviation: the response summary `iot_ingest` builds from an oracle
verdict and a cluster id. -/
def ingestResultOf (an : OracleAnomaly) (cid : Int) : IngestResult :=
  { status := "success"
    anomaly := an.anomaly
    anomaly_score := an.anomaly_score
    cluster := cid
    risk_level := ingestLevel an cid
    risk_score := ingestScore an cid }

/-- A concrete input record, in the shape the simulator generates. -/
def sampleData : IoTInput :=
  { timestamp := "2025-01-01T00:00:00"
    store := 1
    dept := 3
    Weekly_Sales := 25000
    Temperature := 21
    Fuel_Price := 3
    CPI := 200
    Unemployment := 5
    IsHoliday := 0 }

/-- A concrete oracle marking every record an outlier with score 0.20 and
cluster 7. -/
def highOracle : Oracle :=
  { detect_anomalies := fun _ => some { anomaly := -1, anomaly_score := 1 / 5 }
    cluster := fun _ => some 7 }

/-- A concrete oracle marking every record normal with score 0.05 and
cluster 1. -/
def lowOracle : Oracle :=
  { detect_anomalies := fun _ => some { anomaly := 1, anomaly_score := 1 / 20 }
    cluster := fun _ => some 1 }

/-- A concrete oracle whose anomaly-detection entry point raises. -/
def failingOracle : Oracle :=
  { detect_anomalies := fun _ => none
    cluster := fun _ => some 1 }

/-- A concrete oracle whose cluster entry point raises after a successful
anomaly detection. -/
def clusterFailOracle : Oracle :=
  { detect_anomalies := fun _ => some { anomaly := -1, anomaly_score := 1 / 5 }
    cluster := fun _ => none }

/-! ## Helper lemmas -/

lemma riskLevel_high_iff (s : Nat) : riskLevel s = "HIGH" ↔ 60 ≤ s := by
  unfold riskLevel
  by_cases h60 : 60 ≤ s <;> by_cases h30 : 30 ≤ s <;> simp [h60, h30]

lemma riskLevel_medium_iff (s : Nat) : riskLevel s = "MEDIUM" ↔ 30 ≤ s ∧ s < 60 := by
  unfold riskLevel
  by_cases h60 : 60 ≤ s <;> by_cases h30 : 30 ≤ s <;> simp [h60, h30] <;> omega

lemma riskLevel_low_iff (s : Nat) : riskLevel s = "LOW" ↔ s < 30 := by
  unfold riskLevel
  by_cases h60 : 60 ≤ s <;> by_cases h30 : 30 ≤ s <;> simp [h60, h30] <;> omega

lemma riskScore_le (flag : Int) (s : ℚ) (cid : Int) : riskScore flag s cid ≤ 70 := by
  unfold riskScore
  split <;> split <;> split <;> simp

lemma riskScore_mem (flag : Int) (s : ℚ) (cid : Int) :
    riskScore flag s cid ∈ ([0, 10, 20, 30, 40, 50, 60, 70] : List Nat) := by
  unfold riskScore
  split <;> split <;> split <;> simp

/-- The shape of a successful trace: both oracle calls return, so the call
runs to its `return`. -/
lemma ingest_trace (model : Oracle) (data : IoTInput) (an : OracleAnomaly) (cid : Int)
    (h1 : model.detect_anomalies (toFeatures data) = some an)
    (h2 : model.cluster (toFeatures data) = some cid) :
    iot_ingest model data =
      [Event.dbAdd (Fact.anomalyLog
        { timestamp := data.timestamp, value := data.Weekly_Sales
          score := an.anomaly_score, is_anomaly := an.anomaly == -1 }),
       Event.dbAdd (Fact.clusterLog
        { store := data.store, dept := data.dept, cluster := cid, features := data }),
       Event.dbAdd (Fact.riskLog
        { store := data.store, dept := data.dept
          risk_score := ingestScore an cid, risk_level := ingestLevel an cid
          anomaly := an.anomaly, cluster := cid })]
      ++ (if ingestLevel an cid = "HIGH" then
            [Event.dbAdd (Fact.alert
              { store := data.store, dept := data.dept
                message := alertMessage, risk_score := ingestScore an cid })]
          else [])
      ++ [Event.dbCommit, Event.buildResult (ingestResultOf an cid),
          Event.dispatchTask data (ingestResultOf an cid),
          Event.ret (ingestResultOf an cid)] := by
  unfold iot_ingest
  simp only [h1, h2, ingestScore, ingestLevel, ingestResultOf]

/-- The shape of a trace aborted by the anomaly-detection call raising. -/
lemma ingest_trace_anomaly_fail (model : Oracle) (data : IoTInput)
    (h1 : model.detect_anomalies (toFeatures data) = none) :
    iot_ingest model data = [] := by
  unfold iot_ingest
  simp only [h1]

/-- The shape of a trace aborted by the cluster call raising: the pending
`AnomalyLog` add is in the trace but is never committed. -/
lemma ingest_trace_cluster_fail (model : Oracle) (data : IoTInput) (an : OracleAnomaly)
    (h1 : model.detect_anomalies (toFeatures data) = some an)
    (h2 : model.cluster (toFeatures data) = none) :
    iot_ingest model data =
      [Event.dbAdd (Fact.anomalyLog
        { timestamp := data.timestamp, value := data.Weekly_Sales
          score := an.anomaly_score, is_anomaly := an.anomaly == -1 })] := by
  unfold iot_ingest
  simp only [h1, h2]

/-- Committed facts of a successful trace. -/
lemma committed_of_success (model : Oracle) (data : IoTInput) (an : OracleAnomaly) (cid : Int)
    (h1 : model.detect_anomalies (toFeatures data) = some an)
    (h2 : model.cluster (toFeatures data) = some cid) :
    committedFacts (iot_ingest model data) =
      [Fact.anomalyLog
        { timestamp := data.timestamp, value := data.Weekly_Sales
          score := an.anomaly_score, is_anomaly := an.anomaly == -1 },
       Fact.clusterLog
        { store := data.store, dept := data.dept, cluster := cid, features := data },
       Fact.riskLog
        { store := data.store, dept := data.dept
          risk_score := ingestScore an cid, risk_level := ingestLevel an cid
          anomaly := an.anomaly, cluster := cid }]
      ++ (if ingestLevel an cid = "HIGH" then
            [Fact.alert
              { store := data.store, dept := data.dept
                message := alertMessage, risk_score := ingestScore an cid }]
          else []) := by
  rw [ingest_trace model data an cid h1 h2]
  by_cases hH : ingestLevel an cid = "HIGH" <;>
    simp [hH, committedFacts, commitStep]

/-- Dispatched tasks of a successful trace. -/
lemma tasks_of_success (model : Oracle) (data : IoTInput) (an : OracleAnomaly) (cid : Int)
    (h1 : model.detect_anomalies (toFeatures data) = some an)
    (h2 : model.cluster (toFeatures data) = some cid) :
    dispatchedTasks (iot_ingest model data) = [(data, ingestResultOf an cid)] := by
  rw [ingest_trace model data an cid h1 h2]
  by_cases hH : ingestLevel an cid = "HIGH" <;>
    simp [hH, dispatchedTasks]

/-- Returned result of a successful trace. -/
lemma returned_of_success (model : Oracle) (data : IoTInput) (an : OracleAnomaly) (cid : Int)
    (h1 : model.detect_anomalies (toFeatures data) = some an)
    (h2 : model.cluster (toFeatures data) = some cid) :
    returnedResult (iot_ingest model data) = some (ingestResultOf an cid) := by
  rw [ingest_trace model data an cid h1 h2]
  by_cases hH : ingestLevel an cid = "HIGH" <;>
    simp [hH, returnedResult]

lemma riskLevel_mem (s : Nat) : riskLevel s ∈ (["LOW", "MEDIUM", "HIGH"] : List String) := by
  unfold riskLevel
  split
  · simp
  · split <;> simp

/-- Messages a run of the background task hands to the manager when the
manager behaves as the spec requires (never raising): the IoT update, then
the alert exactly when the result's risk level is `"HIGH"`. -/
lemma broadcast_sent_spec (data : IoTInput) (result : IngestResult) :
    (broadcast_update specManager data result).1 =
      if result.risk_level = "HIGH" then
        [BroadcastMsg.iotUpdate data result,
         BroadcastMsg.alertMsg data.store data.dept alertMessage result.risk_score]
      else [BroadcastMsg.iotUpdate data result] := by
  by_cases h : result.risk_level = "HIGH" <;>
    simp [broadcast_update, broadcastBody, specManager, h]

/-- The background task never lets an exception escape, whatever the
manager does. -/
lemma broadcast_never_raises (mgr : Manager) (data : IoTInput) (result : IngestResult) :
    (broadcast_update mgr data result).2 = none := by
  unfold broadcast_update
  split <;> rfl

/-! ## Claims -/

/-- Claim C1: for every anomaly verdict, anomaly score, and cluster id, the
risk classification computes a score in [0, 70] equal to the sum of the
three additive rules (+40 when the verdict indicates an outlier, +10 when
the absolute anomaly score exceeds 0.15, +20 when the cluster id is 6 or
7), and assigns level HIGH iff score ≥ 60, MEDIUM iff 30 ≤ score < 60, LOW
iff score < 30; score exactly 30 yields MEDIUM and exactly 60 yields HIGH. -/
theorem risk_classification_correct (flag : Int) (s : ℚ) (cid : Int) :
    riskScore flag s cid =
      (if flag = -1 then 40 else 0) + (if 15 / 100 < |s| then 10 else 0)
        + (if cid = 6 ∨ cid = 7 then 20 else 0)
    ∧ riskScore flag s cid ≤ 70
    ∧ (riskLevel (riskScore flag s cid) = "HIGH" ↔ 60 ≤ riskScore flag s cid)
    ∧ (riskLevel (riskScore flag s cid) = "MEDIUM" ↔
        30 ≤ riskScore flag s cid ∧ riskScore flag s cid < 60)
    ∧ (riskLevel (riskScore flag s cid) = "LOW" ↔ riskScore flag s cid < 30)
    ∧ riskLevel 30 = "MEDIUM" ∧ riskLevel 60 = "HIGH" :=
  ⟨rfl, riskScore_le flag s cid, riskLevel_high_iff _, riskLevel_medium_iff _,
   riskLevel_low_iff _, by norm_num [riskLevel], by norm_num [riskLevel]⟩

/-- Claim C9: every attainable risk score lies in {0, 10, 20, 30, 40, 50,
60, 70}; the level is LOW exactly on {0, 10, 20}, MEDIUM exactly on
{30, 40, 50}, HIGH exactly on {60, 70}; and both boundaries 30 and 60 are
attainable. -/
theorem risk_score_partition (flag : Int) (s : ℚ) (cid : Int) :
    riskScore flag s cid ∈ ([0, 10, 20, 30, 40, 50, 60, 70] : List Nat)
    ∧ (riskLevel (riskScore flag s cid) = "LOW" ↔
        riskScore flag s cid ∈ ([0, 10, 20] : List Nat))
    ∧ (riskLevel (riskScore flag s cid) = "MEDIUM" ↔
        riskScore flag s cid ∈ ([30, 40, 50] : List Nat))
    ∧ (riskLevel (riskScore flag s cid) = "HIGH" ↔
        riskScore flag s cid ∈ ([60, 70] : List Nat))
    ∧ (∃ f q c, riskScore f q c = 30) ∧ (∃ f q c, riskScore f q c = 60) := by
  have hmem := riskScore_mem flag s cid
  simp only [List.mem_cons, List.not_mem_nil, or_false] at hmem
  refine ⟨riskScore_mem flag s cid, ?_, ?_, ?_,
    ⟨1, 1 / 5, 6, by norm_num [riskScore, abs_of_nonneg]⟩,
    ⟨-1, 0, 6, by norm_num [riskScore, abs_of_nonneg]⟩⟩ <;>
  · rcases hmem with h | h | h | h | h | h | h | h <;> rw [h] <;> norm_num [riskLevel] <;> decide

/-- Claim C5: on the input where the oracle marks the record an outlier
with anomaly score 0.20 and cluster id 7, the ingest call returns score 70
with level HIGH and persists an Alert fact. -/
theorem high_input_produces_alert :
    returnedResult (iot_ingest highOracle sampleData) = some
      { status := "success", anomaly := -1, anomaly_score := 1 / 5, cluster := 7
        risk_level := "HIGH", risk_score := 70 }
    ∧ Fact.alert
        { store := sampleData.store, dept := sampleData.dept
          message := alertMessage, risk_score := 70 }
      ∈ committedFacts (iot_ingest highOracle sampleData) := by
  have hres : ingestResultOf ⟨-1, 1 / 5⟩ 7 =
      { status := "success", anomaly := -1, anomaly_score := 1 / 5, cluster := 7
        risk_level := "HIGH", risk_score := 70 } := by
    norm_num [ingestResultOf, ingestLevel, ingestScore, riskScore, riskLevel, abs_of_nonneg]
  have hH : ingestLevel (⟨-1, 1 / 5⟩ : OracleAnomaly) 7 = "HIGH" := by
    norm_num [ingestLevel, ingestScore, riskScore, riskLevel, abs_of_nonneg]
  have hscore : ingestScore (⟨-1, 1 / 5⟩ : OracleAnomaly) 7 = 70 := by
    norm_num [ingestScore, riskScore, abs_of_nonneg]
  constructor
  · rw [returned_of_success highOracle sampleData ⟨-1, 1 / 5⟩ 7 rfl rfl, hres]
  · rw [committed_of_success highOracle sampleData ⟨-1, 1 / 5⟩ 7 rfl rfl, if_pos hH, hscore]
    simp

/-- Claim C2: in every successful ingest call, an Alert fact carrying the
call's store, department, message, and risk score is persisted iff the
computed risk level is HIGH, and no Alert fact of any kind is persisted
otherwise. -/
theorem alert_iff_high (model : Oracle) (data : IoTInput) (an : OracleAnomaly) (cid : Int)
    (h1 : model.detect_anomalies (toFeatures data) = some an)
    (h2 : model.cluster (toFeatures data) = some cid) :
    (Fact.alert
        { store := data.store, dept := data.dept
          message := alertMessage, risk_score := ingestScore an cid }
      ∈ committedFacts (iot_ingest model data)
      ↔ ingestLevel an cid = "HIGH")
    ∧ ∀ a : Alert, Fact.alert a ∈ committedFacts (iot_ingest model data) →
        ingestLevel an cid = "HIGH" := by
  rw [committed_of_success model data an cid h1 h2]
  by_cases hH : ingestLevel an cid = "HIGH" <;> simp [hH]

theorem alert_iff_high_witness :
    highOracle.detect_anomalies (toFeatures sampleData) =
        some { anomaly := -1, anomaly_score := 1 / 5 }
    ∧ highOracle.cluster (toFeatures sampleData) = some 7
    ∧ ((Fact.alert
          { store := sampleData.store, dept := sampleData.dept
            message := alertMessage, risk_score := ingestScore ⟨-1, 1 / 5⟩ 7 }
        ∈ committedFacts (iot_ingest highOracle sampleData)
        ↔ ingestLevel ⟨-1, 1 / 5⟩ 7 = "HIGH")
      ∧ ∀ a : Alert, Fact.alert a ∈ committedFacts (iot_ingest highOracle sampleData) →
          ingestLevel ⟨-1, 1 / 5⟩ 7 = "HIGH") :=
  ⟨rfl, rfl, alert_iff_high highOracle sampleData ⟨-1, 1 / 5⟩ 7 rfl rfl⟩

/-- Claim C3: an ingest call in which either oracle step raises persists
nothing durably, dispatches no broadcast task, returns nothing to the
caller, and — whatever the manager would do — sends no broadcast message. -/
theorem oracle_failure_zero_facts (model : Oracle) (data : IoTInput)
    (h : model.detect_anomalies (toFeatures data) = none ∨
         model.cluster (toFeatures data) = none) :
    committedFacts (iot_ingest model data) = []
    ∧ dispatchedTasks (iot_ingest model data) = []
    ∧ returnedResult (iot_ingest model data) = none
    ∧ ∀ mgr : Manager, (systemRun mgr model data).2 = [] := by
  rcases h with h1 | h2
  · rw [ingest_trace_anomaly_fail model data h1]
    exact ⟨rfl, rfl, rfl, fun mgr => by simp [systemRun, ingest_trace_anomaly_fail model data h1,
      dispatchedTasks]⟩
  · cases hd : model.detect_anomalies (toFeatures data) with
    | none =>
      rw [ingest_trace_anomaly_fail model data hd]
      exact ⟨rfl, rfl, rfl, fun mgr => by simp [systemRun, ingest_trace_anomaly_fail model data hd,
        dispatchedTasks]⟩
    | some an =>
      rw [ingest_trace_cluster_fail model data an hd h2]
      refine ⟨by simp [committedFacts, commitStep], rfl, rfl, fun mgr => ?_⟩
      simp [systemRun, ingest_trace_cluster_fail model data an hd h2, dispatchedTasks]

theorem oracle_failure_zero_facts_witness :
    (failingOracle.detect_anomalies (toFeatures sampleData) = none ∨
       failingOracle.cluster (toFeatures sampleData) = none)
    ∧ (clusterFailOracle.detect_anomalies (toFeatures sampleData) = none ∨
       clusterFailOracle.cluster (toFeatures sampleData) = none)
    ∧ (committedFacts (iot_ingest failingOracle sampleData) = []
       ∧ dispatchedTasks (iot_ingest failingOracle sampleData) = []
       ∧ returnedResult (iot_ingest failingOracle sampleData) = none
       ∧ ∀ mgr : Manager, (systemRun mgr failingOracle sampleData).2 = [])
    ∧ (committedFacts (iot_ingest clusterFailOracle sampleData) = []
       ∧ dispatchedTasks (iot_ingest clusterFailOracle sampleData) = []
       ∧ returnedResult (iot_ingest clusterFailOracle sampleData) = none
       ∧ ∀ mgr : Manager, (systemRun mgr clusterFailOracle sampleData).2 = []) :=
  ⟨Or.inl rfl, Or.inr rfl,
   oracle_failure_zero_facts failingOracle sampleData (Or.inl rfl),
   oracle_failure_zero_facts clusterFailOracle sampleData (Or.inr rfl)⟩

/-- Claim C4: every successful ingest call persists exactly one
AnomalyLog, one ClusterLog, and one RiskLog, and the RiskLog's `anomaly`
and `cluster` fields mirror the flag recorded in the AnomalyLog and the
cluster id recorded in the ClusterLog of the same call. -/
theorem one_fact_each (model : Oracle) (data : IoTInput) (an : OracleAnomaly) (cid : Int)
    (h1 : model.detect_anomalies (toFeatures data) = some an)
    (h2 : model.cluster (toFeatures data) = some cid) :
    (committedFacts (iot_ingest model data)).countP Fact.isAnomalyLog = 1
    ∧ (committedFacts (iot_ingest model data)).countP Fact.isClusterLog = 1
    ∧ (committedFacts (iot_ingest model data)).countP Fact.isRiskLog = 1
    ∧ ∀ al cl rl, Fact.anomalyLog al ∈ committedFacts (iot_ingest model data) →
        Fact.clusterLog cl ∈ committedFacts (iot_ingest model data) →
        Fact.riskLog rl ∈ committedFacts (iot_ingest model data) →
        rl.anomaly = an.anomaly ∧ (rl.anomaly = -1 ↔ al.is_anomaly = true)
          ∧ rl.cluster = cl.cluster := by
  rw [committed_of_success model data an cid h1 h2]
  by_cases hH : ingestLevel an cid = "HIGH" <;>
    simp [hH, Fact.isAnomalyLog, Fact.isClusterLog, Fact.isRiskLog, List.countP_cons] <;>
    (rintro al cl rl rfl rfl rfl; simp)

theorem one_fact_each_witness :
    highOracle.detect_anomalies (toFeatures sampleData) =
        some { anomaly := -1, anomaly_score := 1 / 5 }
    ∧ highOracle.cluster (toFeatures sampleData) = some 7
    ∧ ((committedFacts (iot_ingest highOracle sampleData)).countP Fact.isAnomalyLog = 1
      ∧ (committedFacts (iot_ingest highOracle sampleData)).countP Fact.isClusterLog = 1
      ∧ (committedFacts (iot_ingest highOracle sampleData)).countP Fact.isRiskLog = 1
      ∧ ∀ al cl rl, Fact.anomalyLog al ∈ committedFacts (iot_ingest highOracle sampleData) →
          Fact.clusterLog cl ∈ committedFacts (iot_ingest highOracle sampleData) →
          Fact.riskLog rl ∈ committedFacts (iot_ingest highOracle sampleData) →
          rl.anomaly = OracleAnomaly.anomaly ⟨-1, 1 / 5⟩
            ∧ (rl.anomaly = -1 ↔ al.is_anomaly = true)
            ∧ rl.cluster = cl.cluster) :=
  ⟨rfl, rfl, one_fact_each highOracle sampleData ⟨-1, 1 / 5⟩ 7 rfl rfl⟩

/-- Claim C8: every successful ingest call returns exactly the summary
with status `"success"`, the oracle's anomaly flag and anomaly score, the
oracle's cluster id, the computed risk level (one of LOW, MEDIUM, HIGH),
and the computed risk score. -/
theorem response_summary (model : Oracle) (data : IoTInput) (an : OracleAnomaly) (cid : Int)
    (h1 : model.detect_anomalies (toFeatures data) = some an)
    (h2 : model.cluster (toFeatures data) = some cid) :
    returnedResult (iot_ingest model data) = some (ingestResultOf an cid)
    ∧ (ingestResultOf an cid).status = "success"
    ∧ (ingestResultOf an cid).anomaly = an.anomaly
    ∧ (ingestResultOf an cid).anomaly_score = an.anomaly_score
    ∧ (ingestResultOf an cid).cluster = cid
    ∧ (ingestResultOf an cid).risk_level = riskLevel (riskScore an.anomaly an.anomaly_score cid)
    ∧ (ingestResultOf an cid).risk_level ∈ (["LOW", "MEDIUM", "HIGH"] : List String)
    ∧ (ingestResultOf an cid).risk_score = riskScore an.anomaly an.anomaly_score cid :=
  ⟨returned_of_success model data an cid h1 h2, rfl, rfl, rfl, rfl, rfl,
   riskLevel_mem _, rfl⟩

theorem response_summary_witness :
    highOracle.detect_anomalies (toFeatures sampleData) =
        some { anomaly := -1, anomaly_score := 1 / 5 }
    ∧ highOracle.cluster (toFeatures sampleData) = some 7
    ∧ (returnedResult (iot_ingest highOracle sampleData) = some (ingestResultOf ⟨-1, 1 / 5⟩ 7)
      ∧ (ingestResultOf ⟨-1, 1 / 5⟩ 7).status = "success"
      ∧ (ingestResultOf ⟨-1, 1 / 5⟩ 7).anomaly = OracleAnomaly.anomaly ⟨-1, 1 / 5⟩
      ∧ (ingestResultOf ⟨-1, 1 / 5⟩ 7).anomaly_score = OracleAnomaly.anomaly_score ⟨-1, 1 / 5⟩
      ∧ (ingestResultOf ⟨-1, 1 / 5⟩ 7).cluster = 7
      ∧ (ingestResultOf ⟨-1, 1 / 5⟩ 7).risk_level =
          riskLevel (riskScore (OracleAnomaly.anomaly ⟨-1, 1 / 5⟩)
            (OracleAnomaly.anomaly_score ⟨-1, 1 / 5⟩) 7)
      ∧ (ingestResultOf ⟨-1, 1 / 5⟩ 7).risk_level ∈ (["LOW", "MEDIUM", "HIGH"] : List String)
      ∧ (ingestResultOf ⟨-1, 1 / 5⟩ 7).risk_score =
          riskScore (OracleAnomaly.anomaly ⟨-1, 1 / 5⟩)
            (OracleAnomaly.anomaly_score ⟨-1, 1 / 5⟩) 7) :=
  ⟨rfl, rfl, response_summary highOracle sampleData ⟨-1, 1 / 5⟩ 7 rfl rfl⟩

/-- Claim C6: in every successful ingest call, the broadcast task is
dispatched after the result summary is built (the trace ends with
build-result, dispatch, return, in that order), the dispatched task
carries exactly the returned result, the task never lets a failure escape,
and the result returned to the caller is the same whatever the manager
does — so no failure inside the broadcast task can fail the ingest call or
change its result. -/
theorem broadcast_decoupled (model : Oracle) (data : IoTInput) (an : OracleAnomaly) (cid : Int)
    (mgr mgr' : Manager)
    (h1 : model.detect_anomalies (toFeatures data) = some an)
    (h2 : model.cluster (toFeatures data) = some cid) :
    (∃ pre, iot_ingest model data =
        pre ++ [Event.buildResult (ingestResultOf an cid),
                Event.dispatchTask data (ingestResultOf an cid),
                Event.ret (ingestResultOf an cid)])
    ∧ dispatchedTasks (iot_ingest model data) = [(data, ingestResultOf an cid)]
    ∧ (broadcast_update mgr data (ingestResultOf an cid)).2 = none
    ∧ (systemRun mgr model data).1 = some (ingestResultOf an cid)
    ∧ (systemRun mgr model data).1 = (systemRun mgr' model data).1 := by
  refine ⟨?_, tasks_of_success model data an cid h1 h2,
    broadcast_never_raises mgr data _, ?_, ?_⟩
  · refine ⟨[Event.dbAdd (Fact.anomalyLog
        { timestamp := data.timestamp, value := data.Weekly_Sales
          score := an.anomaly_score, is_anomaly := an.anomaly == -1 }),
       Event.dbAdd (Fact.clusterLog
        { store := data.store, dept := data.dept, cluster := cid, features := data }),
       Event.dbAdd (Fact.riskLog
        { store := data.store, dept := data.dept
          risk_score := ingestScore an cid, risk_level := ingestLevel an cid
          anomaly := an.anomaly, cluster := cid })]
      ++ (if ingestLevel an cid = "HIGH" then
            [Event.dbAdd (Fact.alert
              { store := data.store, dept := data.dept
                message := alertMessage, risk_score := ingestScore an cid })]
          else [])
      ++ [Event.dbCommit], ?_⟩
    rw [ingest_trace model data an cid h1 h2]
    simp
  · simpa [systemRun] using returned_of_success model data an cid h1 h2
  · simp only [systemRun]

theorem broadcast_decoupled_witness :
    highOracle.detect_anomalies (toFeatures sampleData) =
        some { anomaly := -1, anomaly_score := 1 / 5 }
    ∧ highOracle.cluster (toFeatures sampleData) = some 7
    ∧ ((∃ pre, iot_ingest highOracle sampleData =
          pre ++ [Event.buildResult (ingestResultOf ⟨-1, 1 / 5⟩ 7),
                  Event.dispatchTask sampleData (ingestResultOf ⟨-1, 1 / 5⟩ 7),
                  Event.ret (ingestResultOf ⟨-1, 1 / 5⟩ 7)])
      ∧ dispatchedTasks (iot_ingest highOracle sampleData) =
          [(sampleData, ingestResultOf ⟨-1, 1 / 5⟩ 7)]
      ∧ (broadcast_update ⟨some "boom", some "boom"⟩ sampleData
          (ingestResultOf ⟨-1, 1 / 5⟩ 7)).2 = none
      ∧ (systemRun ⟨some "boom", some "boom"⟩ highOracle sampleData).1 =
          some (ingestResultOf ⟨-1, 1 / 5⟩ 7)
      ∧ (systemRun ⟨some "boom", some "boom"⟩ highOracle sampleData).1 =
          (systemRun specManager highOracle sampleData).1) :=
  ⟨rfl, rfl, broadcast_decoupled highOracle sampleData ⟨-1, 1 / 5⟩ 7
    ⟨some "boom", some "boom"⟩ specManager rfl rfl⟩

/-- Claim C7: for every successful ingest call, when the computed risk
level is HIGH the run of the broadcast task sends exactly two messages —
the IoT update first, then the alert; for non-HIGH calls it sends exactly
the IoT update. (The manager is the spec-modelled one, whose broadcasts
never raise.) -/
theorem broadcast_update_then_alert (model : Oracle) (data : IoTInput)
    (an : OracleAnomaly) (cid : Int)
    (h1 : model.detect_anomalies (toFeatures data) = some an)
    (h2 : model.cluster (toFeatures data) = some cid) :
    (ingestLevel an cid = "HIGH" →
      (systemRun specManager model data).2 =
        [BroadcastMsg.iotUpdate data (ingestResultOf an cid),
         BroadcastMsg.alertMsg data.store data.dept alertMessage (ingestScore an cid)])
    ∧ (ingestLevel an cid ≠ "HIGH" →
      (systemRun specManager model data).2 =
        [BroadcastMsg.iotUpdate data (ingestResultOf an cid)]) := by
  have ht := tasks_of_success model data an cid h1 h2
  constructor <;> intro hH <;>
    simp [systemRun, ht, broadcast_sent_spec, ingestResultOf, ingestScore, hH]

theorem broadcast_update_then_alert_witness :
    highOracle.detect_anomalies (toFeatures sampleData) =
        some { anomaly := -1, anomaly_score := 1 / 5 }
    ∧ highOracle.cluster (toFeatures sampleData) = some 7
    ∧ lowOracle.detect_anomalies (toFeatures sampleData) =
        some { anomaly := 1, anomaly_score := 1 / 20 }
    ∧ lowOracle.cluster (toFeatures sampleData) = some 1
    ∧ ingestLevel ⟨-1, 1 / 5⟩ 7 = "HIGH"
    ∧ ingestLevel ⟨1, 1 / 20⟩ 1 ≠ "HIGH"
    ∧ (systemRun specManager highOracle sampleData).2 =
        [BroadcastMsg.iotUpdate sampleData (ingestResultOf ⟨-1, 1 / 5⟩ 7),
         BroadcastMsg.alertMsg sampleData.store sampleData.dept alertMessage
           (ingestScore ⟨-1, 1 / 5⟩ 7)]
    ∧ (systemRun specManager lowOracle sampleData).2 =
        [BroadcastMsg.iotUpdate sampleData (ingestResultOf ⟨1, 1 / 20⟩ 1)] := by
  have hH : ingestLevel (⟨-1, 1 / 5⟩ : OracleAnomaly) 7 = "HIGH" := by
    norm_num [ingestLevel, ingestScore, riskScore, riskLevel, abs_of_nonneg]
  have hL : ingestLevel (⟨1, 1 / 20⟩ : OracleAnomaly) 1 ≠ "HIGH" := by
    norm_num [ingestLevel, ingestScore, riskScore, riskLevel, abs_of_nonneg]
    decide
  exact ⟨rfl, rfl, rfl, rfl, hH, hL,
    (broadcast_update_then_alert highOracle sampleData ⟨-1, 1 / 5⟩ 7 rfl rfl).1 hH,
    (broadcast_update_then_alert lowOracle sampleData ⟨1, 1 / 20⟩ 1 rfl rfl).2 hL⟩

/-- Claim C10: in every successful HIGH-risk ingest call, the persisted
Alert fact and the broadcast alert notification are unique and carry the
identical message string, the input record's store and department ids, and
the same risk score as the RiskLog of that call. -/
theorem alert_fact_broadcast_agree (model : Oracle) (data : IoTInput)
    (an : OracleAnomaly) (cid : Int)
    (h1 : model.detect_anomalies (toFeatures data) = some an)
    (h2 : model.cluster (toFeatures data) = some cid)
    (hH : ingestLevel an cid = "HIGH") :
    (Fact.alert
        { store := data.store, dept := data.dept
          message := alertMessage, risk_score := ingestScore an cid }
      ∈ committedFacts (iot_ingest model data))
    ∧ (∀ a : Alert, Fact.alert a ∈ committedFacts (iot_ingest model data) →
        a = { store := data.store, dept := data.dept
              message := alertMessage, risk_score := ingestScore an cid })
    ∧ BroadcastMsg.alertMsg data.store data.dept alertMessage (ingestScore an cid)
        ∈ (systemRun specManager model data).2
    ∧ (∀ s d m rs, BroadcastMsg.alertMsg s d m rs ∈ (systemRun specManager model data).2 →
        s = data.store ∧ d = data.dept ∧ m = alertMessage ∧ rs = ingestScore an cid)
    ∧ ∀ rl : RiskLog, Fact.riskLog rl ∈ committedFacts (iot_ingest model data) →
        rl.risk_score = ingestScore an cid ∧ rl.store = data.store ∧ rl.dept = data.dept := by
  have hc := committed_of_success model data an cid h1 h2
  have ht := tasks_of_success model data an cid h1 h2
  rw [hc, if_pos hH]
  refine ⟨by simp, by simp, ?_, ?_, by simp⟩ <;>
    simp [systemRun, ht, broadcast_sent_spec, ingestResultOf, ingestScore, hH]

theorem alert_fact_broadcast_agree_witness :
    highOracle.detect_anomalies (toFeatures sampleData) =
        some { anomaly := -1, anomaly_score := 1 / 5 }
    ∧ highOracle.cluster (toFeatures sampleData) = some 7
    ∧ ingestLevel ⟨-1, 1 / 5⟩ 7 = "HIGH"
    ∧ ((Fact.alert
          { store := sampleData.store, dept := sampleData.dept
            message := alertMessage, risk_score := ingestScore ⟨-1, 1 / 5⟩ 7 }
        ∈ committedFacts (iot_ingest highOracle sampleData))
      ∧ (∀ a : Alert, Fact.alert a ∈ committedFacts (iot_ingest highOracle sampleData) →
          a = { store := sampleData.store, dept := sampleData.dept
                message := alertMessage, risk_score := ingestScore ⟨-1, 1 / 5⟩ 7 })
      ∧ BroadcastMsg.alertMsg sampleData.store sampleData.dept alertMessage
          (ingestScore ⟨-1, 1 / 5⟩ 7) ∈ (systemRun specManager highOracle sampleData).2
      ∧ (∀ s d m rs, BroadcastMsg.alertMsg s d m rs
            ∈ (systemRun specManager highOracle sampleData).2 →
          s = sampleData.store ∧ d = sampleData.dept ∧ m = alertMessage
            ∧ rs = ingestScore ⟨-1, 1 / 5⟩ 7)
      ∧ ∀ rl : RiskLog, Fact.riskLog rl ∈ committedFacts (iot_ingest highOracle sampleData) →
          rl.risk_score = ingestScore ⟨-1, 1 / 5⟩ 7 ∧ rl.store = sampleData.store
            ∧ rl.dept = sampleData.dept) := by
  have hH : ingestLevel (⟨-1, 1 / 5⟩ : OracleAnomaly) 7 = "HIGH" := by
    norm_num [ingestLevel, ingestScore, riskScore, riskLevel, abs_of_nonneg]
  exact ⟨rfl, rfl, hH,
    alert_fact_broadcast_agree highOracle sampleData ⟨-1, 1 / 5⟩ 7 rfl rfl hH⟩

end OrganC
